import Mathlib

/-
Verification of the action-classification model of the Swift compiler
frontend driver (lib/Frontend/FrontendOptions.cpp).  The ActionType
enumeration and every classification predicate below are shallow
embeddings of the corresponding C++ switch tables; the Options
aggregate is embedded as a structure holding the fields the queries
read.
-/

/-- ActionType: the closed enumeration of frontend pipeline stages, as
enumerated by the switch statements of lib/Frontend/FrontendOptions.cpp. -/
inductive ActionType
  | NoneAction
  | Parse
  | Typecheck
  | DumpParse
  | DumpAST
  | EmitSyntax
  | DumpInterfaceHash
  | PrintAST
  | DumpScopeMaps
  | DumpTypeRefinementContexts
  | EmitPCH
  | EmitSILGen
  | EmitSIL
  | EmitSIBGen
  | EmitSIB
  | EmitModuleOnly
  | MergeModules
  | Immediate
  | REPL
  | EmitAssembly
  | EmitIR
  | EmitBC
  | EmitObject
  | EmitImportedModules
  deriving DecidableEq, Fintype, Repr

/-- FrontendOptions::needsProperModuleName (FrontendOptions.cpp lines 30-62). -/
def FrontendOptions.needsProperModuleName : ActionType → Bool
  | .NoneAction
  | .Parse
  | .Typecheck
  | .DumpParse
  | .DumpAST
  | .EmitSyntax
  | .DumpInterfaceHash
  | .PrintAST
  | .DumpScopeMaps
  | .DumpTypeRefinementContexts => false
  | .EmitPCH
  | .EmitSILGen
  | .EmitSIL
  | .EmitSIBGen
  | .EmitSIB
  | .EmitModuleOnly
  | .MergeModules => true
  | .Immediate
  | .REPL => false
  | .EmitAssembly
  | .EmitIR
  | .EmitBC
  | .EmitObject
  | .EmitImportedModules => true

/-- FrontendOptions::isActionImmediate (FrontendOptions.cpp lines 64-95). -/
def FrontendOptions.isActionImmediate : ActionType → Bool
  | .NoneAction
  | .Parse
  | .Typecheck
  | .DumpParse
  | .DumpAST
  | .EmitSyntax
  | .DumpInterfaceHash
  | .PrintAST
  | .DumpScopeMaps
  | .DumpTypeRefinementContexts
  | .EmitPCH
  | .EmitSILGen
  | .EmitSIL
  | .EmitSIBGen
  | .EmitSIB
  | .EmitModuleOnly
  | .MergeModules => false
  | .Immediate
  | .REPL => true
  | .EmitAssembly
  | .EmitIR
  | .EmitBC
  | .EmitObject
  | .EmitImportedModules => false

/-- Modelled from the spec: the suffix token for precompiled headers
(PCH_EXTENSION, declared outside the excerpt). -/
def PCH_EXTENSION : String := "pch"

/-- Modelled from the spec: the suffix token for SIL output
(SIL_EXTENSION, declared outside the excerpt). -/
def SIL_EXTENSION : String := "sil"

/-- Modelled from the spec: the suffix token for SIB output
(SIB_EXTENSION, declared outside the excerpt). -/
def SIB_EXTENSION : String := "sib"

/-- Modelled from the spec: the suffix token for serialized modules
(SERIALIZED_MODULE_EXTENSION, declared outside the excerpt). -/
def SERIALIZED_MODULE_EXTENSION : String := "swiftmodule"

/-- FrontendOptions::suffixForPrincipalOutputFileForAction
(FrontendOptions.cpp lines 135-187); the C++ nullptr result is embedded
as none. -/
def FrontendOptions.suffixForPrincipalOutputFileForAction : ActionType → Option String
  | .NoneAction => none
  | .Parse
  | .Typecheck
  | .DumpParse
  | .DumpInterfaceHash
  | .DumpAST
  | .EmitSyntax
  | .PrintAST
  | .DumpScopeMaps
  | .DumpTypeRefinementContexts => none
  | .EmitPCH => some PCH_EXTENSION
  | .EmitSILGen
  | .EmitSIL => some SIL_EXTENSION
  | .EmitSIBGen
  | .EmitSIB => some SIB_EXTENSION
  | .MergeModules
  | .EmitModuleOnly => some SERIALIZED_MODULE_EXTENSION
  | .Immediate
  | .REPL => none
  | .EmitAssembly => some "s"
  | .EmitIR => some "ll"
  | .EmitBC => some "bc"
  | .EmitObject => some "o"
  | .EmitImportedModules => some "importedmodules"

/-- FrontendOptions::canActionEmitDependencies (FrontendOptions.cpp lines 194-223). -/
def FrontendOptions.canActionEmitDependencies : ActionType → Bool
  | .NoneAction
  | .DumpParse
  | .DumpInterfaceHash
  | .DumpAST
  | .EmitSyntax
  | .PrintAST
  | .DumpScopeMaps
  | .DumpTypeRefinementContexts
  | .Immediate
  | .REPL => false
  | .Parse
  | .Typecheck
  | .MergeModules
  | .EmitModuleOnly
  | .EmitPCH
  | .EmitSILGen
  | .EmitSIL
  | .EmitSIBGen
  | .EmitSIB
  | .EmitIR
  | .EmitBC
  | .EmitAssembly
  | .EmitObject
  | .EmitImportedModules => true

/-- FrontendOptions::canActionEmitHeader (FrontendOptions.cpp lines 229-258). -/
def FrontendOptions.canActionEmitHeader : ActionType → Bool
  | .NoneAction
  | .DumpParse
  | .DumpInterfaceHash
  | .DumpAST
  | .EmitSyntax
  | .PrintAST
  | .EmitPCH
  | .DumpScopeMaps
  | .DumpTypeRefinementContexts
  | .Immediate
  | .REPL => false
  | .Parse
  | .Typecheck
  | .MergeModules
  | .EmitModuleOnly
  | .EmitSILGen
  | .EmitSIL
  | .EmitSIBGen
  | .EmitSIB
  | .EmitIR
  | .EmitBC
  | .EmitAssembly
  | .EmitObject
  | .EmitImportedModules => true

/-- FrontendOptions::canActionEmitLoadedModuleTrace (FrontendOptions.cpp lines 265-294). -/
def FrontendOptions.canActionEmitLoadedModuleTrace : ActionType → Bool
  | .NoneAction
  | .Parse
  | .DumpParse
  | .DumpInterfaceHash
  | .DumpAST
  | .EmitSyntax
  | .PrintAST
  | .DumpScopeMaps
  | .DumpTypeRefinementContexts
  | .Immediate
  | .REPL => false
  | .Typecheck
  | .MergeModules
  | .EmitModuleOnly
  | .EmitPCH
  | .EmitSILGen
  | .EmitSIL
  | .EmitSIBGen
  | .EmitSIB
  | .EmitIR
  | .EmitBC
  | .EmitAssembly
  | .EmitObject
  | .EmitImportedModules => true

/-- FrontendOptions::canActionEmitModule (FrontendOptions.cpp lines 304-333). -/
def FrontendOptions.canActionEmitModule : ActionType → Bool
  | .NoneAction
  | .Parse
  | .Typecheck
  | .DumpParse
  | .DumpInterfaceHash
  | .DumpAST
  | .EmitSyntax
  | .PrintAST
  | .EmitPCH
  | .DumpScopeMaps
  | .DumpTypeRefinementContexts
  | .EmitSILGen
  | .Immediate
  | .REPL => false
  | .MergeModules
  | .EmitModuleOnly
  | .EmitSIL
  | .EmitSIBGen
  | .EmitSIB
  | .EmitIR
  | .EmitBC
  | .EmitAssembly
  | .EmitObject
  | .EmitImportedModules => true

/-- FrontendOptions::canActionEmitModuleDoc (FrontendOptions.cpp lines 335-337). -/
def FrontendOptions.canActionEmitModuleDoc (action : ActionType) : Bool :=
  FrontendOptions.canActionEmitModule action

/-- FrontendOptions::doesActionProduceOutput (FrontendOptions.cpp lines 339-370). -/
def FrontendOptions.doesActionProduceOutput : ActionType → Bool
  | .Parse
  | .Typecheck
  | .DumpParse
  | .DumpAST
  | .EmitSyntax
  | .DumpInterfaceHash
  | .PrintAST
  | .DumpScopeMaps
  | .DumpTypeRefinementContexts
  | .EmitPCH
  | .EmitSILGen
  | .EmitSIL
  | .EmitSIBGen
  | .EmitSIB
  | .EmitModuleOnly
  | .EmitAssembly
  | .EmitIR
  | .EmitBC
  | .EmitObject
  | .EmitImportedModules
  | .MergeModules => true
  | .NoneAction
  | .Immediate
  | .REPL => false

/-- FrontendOptions::doesActionProduceTextualOutput (FrontendOptions.cpp lines 372-402). -/
def FrontendOptions.doesActionProduceTextualOutput : ActionType → Bool
  | .NoneAction
  | .EmitPCH
  | .EmitSIBGen
  | .EmitSIB
  | .MergeModules
  | .EmitModuleOnly
  | .EmitBC
  | .EmitObject
  | .Immediate
  | .REPL => false
  | .Parse
  | .Typecheck
  | .DumpParse
  | .DumpInterfaceHash
  | .DumpAST
  | .EmitSyntax
  | .PrintAST
  | .DumpScopeMaps
  | .DumpTypeRefinementContexts
  | .EmitImportedModules
  | .EmitSILGen
  | .EmitSIL
  | .EmitAssembly => true
  | .EmitIR => true

/-- The Options aggregate: the fields of FrontendOptions that the
queries in FrontendOptions.cpp read.  UniquePrimaryInput embeds the
collaborator query Inputs.getUniquePrimaryInput (the unique primary
input's file path, if any). -/
structure FrontendOptions where
  RequestedAction : ActionType
  OutputFilenames : List String
  ModuleOutputPath : String
  ModuleDocOutputPath : String
  ObjCHeaderOutputPath : String
  DependenciesFilePath : String
  LoadedModuleTracePath : String
  ModuleName : String
  UniquePrimaryInput : Option String
  deriving Repr, DecidableEq

/-- Modelled from the spec: the Options aggregate's query for whether a
single named output file was declared (hasNamedOutputFile, declared
outside the excerpt; the spec describes it as supplied from the
declared output list). -/
def FrontendOptions.hasNamedOutputFile (o : FrontendOptions) : Bool :=
  o.OutputFilenames.length == 1

/-- Modelled from the spec: the Options aggregate's query for the path
of the single named output file (getSingleOutputFilename, declared
outside the excerpt). -/
def FrontendOptions.getSingleOutputFilename (o : FrontendOptions) : String :=
  o.OutputFilenames.headD ""

/-- Modelled from the spec: llvm sys path filename, the collaborator
that extracts the last component of a path (the primary input's
filename), here the suffix after the last path separator. -/
def Path.filename (p : String) : String :=
  String.mk ((p.toList.reverse.takeWhile (fun c => c ≠ '/')).reverse)

/-- FrontendOptions::originalPath (FrontendOptions.cpp lines 117-128). -/
def FrontendOptions.originalPath (o : FrontendOptions) : String :=
  if o.hasNamedOutputFile then
    o.getSingleOutputFilename
  else
    match o.UniquePrimaryInput with
    | some input => Path.filename input
    | none => o.ModuleName

/-- FrontendOptions::hasUnusedDependenciesFilePath (FrontendOptions.cpp lines 189-192). -/
def FrontendOptions.hasUnusedDependenciesFilePath (o : FrontendOptions) : Bool :=
  !o.DependenciesFilePath.isEmpty &&
    !FrontendOptions.canActionEmitDependencies o.RequestedAction

/-- FrontendOptions::hasUnusedObjCHeaderOutputPath (FrontendOptions.cpp lines 225-227). -/
def FrontendOptions.hasUnusedObjCHeaderOutputPath (o : FrontendOptions) : Bool :=
  !o.ObjCHeaderOutputPath.isEmpty &&
    !FrontendOptions.canActionEmitHeader o.RequestedAction

/-- FrontendOptions::hasUnusedLoadedModuleTracePath (FrontendOptions.cpp lines 260-263). -/
def FrontendOptions.hasUnusedLoadedModuleTracePath (o : FrontendOptions) : Bool :=
  !o.LoadedModuleTracePath.isEmpty &&
    !FrontendOptions.canActionEmitLoadedModuleTrace o.RequestedAction

/-- FrontendOptions::forAllOutputPaths (FrontendOptions.cpp lines 97-114).
The C++ callback runs for its side effects; the embedding passes an
explicit state through each invocation of fn, in invocation order. -/
def FrontendOptions.forAllOutputPaths {σ : Type} (o : FrontendOptions)
    (fn : String → σ → σ) (s : σ) : σ :=
  let s1 :=
    if o.RequestedAction ≠ ActionType.EmitModuleOnly ∧
        o.RequestedAction ≠ ActionType.MergeModules then
      o.OutputFilenames.foldl (fun acc p => fn p acc) s
    else s
  let outputs := [o.ModuleOutputPath, o.ModuleDocOutputPath, o.ObjCHeaderOutputPath]
  outputs.foldl (fun acc next => if !next.isEmpty then fn next acc else acc) s1

/-- The sequence of paths the claim says forAllOutputPaths visits:
the principal output filenames unless the action is EmitModuleOnly or
MergeModules, then each of the module, module-doc and ObjC-header
output paths that is non-empty, in that order. -/
def visitedOutputPathsSpec (o : FrontendOptions) : List String :=
  (if o.RequestedAction ≠ ActionType.EmitModuleOnly ∧
      o.RequestedAction ≠ ActionType.MergeModules then
    o.OutputFilenames
  else []) ++
    ([o.ModuleOutputPath, o.ModuleDocOutputPath,
      o.ObjCHeaderOutputPath].filter (fun p => !p.isEmpty))

/-- Options with requested action Parse and a non-empty generated-header
output path. -/
def parseWithHeaderPath : FrontendOptions :=
  { RequestedAction := ActionType.Parse
    OutputFilenames := []
    ModuleOutputPath := ""
    ModuleDocOutputPath := ""
    ObjCHeaderOutputPath := "header.h"
    DependenciesFilePath := ""
    LoadedModuleTracePath := ""
    ModuleName := "M"
    UniquePrimaryInput := none }

/-- Options with requested action MergeModules and the same non-empty
generated-header output path. -/
def mergeWithHeaderPath : FrontendOptions :=
  { parseWithHeaderPath with RequestedAction := ActionType.MergeModules }

/-- Options with a named single output file out.o, primary input
main.swift and module name M. -/
def optNamedOutput : FrontendOptions :=
  { RequestedAction := ActionType.EmitObject
    OutputFilenames := ["out.o"]
    ModuleOutputPath := ""
    ModuleDocOutputPath := ""
    ObjCHeaderOutputPath := ""
    DependenciesFilePath := ""
    LoadedModuleTracePath := ""
    ModuleName := "M"
    UniquePrimaryInput := some "main.swift" }

/-- Options with no named output file, primary input main.swift and
module name M. -/
def optPrimaryInput : FrontendOptions :=
  { optNamedOutput with OutputFilenames := [] }

/-- Options with no named output file, no primary input, and module
name M. -/
def optModuleNameOnly : FrontendOptions :=
  { optPrimaryInput with UniquePrimaryInput := none }

/-- C1 counterexample: the claim that needsProperModuleName is false
for the final-codegen actions is false: at EmitAssembly the source
returns true. -/
theorem needsProperModuleName_codegen_cex :
    ¬ (FrontendOptions.needsProperModuleName ActionType.EmitAssembly = false) := by
  decide

/-- C1 amended: needsProperModuleName is true exactly for EmitPCH,
EmitSILGen, EmitSIL, EmitSIBGen, EmitSIB, EmitModuleOnly, MergeModules
and also for the final-codegen actions EmitAssembly, EmitIR, EmitBC,
EmitObject and EmitImportedModules; it is false for every other
ActionType, namely NoneAction, the parse/dump/diagnostic-only actions,
Immediate and REPL. -/
theorem needsProperModuleName_exact :
    (∀ a : ActionType, FrontendOptions.needsProperModuleName a = true ↔
      (a = ActionType.EmitPCH ∨ a = ActionType.EmitSILGen ∨
        a = ActionType.EmitSIL ∨ a = ActionType.EmitSIBGen ∨
        a = ActionType.EmitSIB ∨ a = ActionType.EmitModuleOnly ∨
        a = ActionType.MergeModules ∨ a = ActionType.EmitAssembly ∨
        a = ActionType.EmitIR ∨ a = ActionType.EmitBC ∨
        a = ActionType.EmitObject ∨ a = ActionType.EmitImportedModules)) ∧
    (∀ a : ActionType,
      a ∈ ([ActionType.NoneAction, ActionType.Parse, ActionType.Typecheck,
        ActionType.DumpParse, ActionType.DumpAST, ActionType.EmitSyntax,
        ActionType.DumpInterfaceHash, ActionType.PrintAST,
        ActionType.DumpScopeMaps, ActionType.DumpTypeRefinementContexts,
        ActionType.Immediate, ActionType.REPL] : List ActionType) →
      FrontendOptions.needsProperModuleName a = false) := by
  constructor
  · decide
  · decide

/-- C2: canActionEmitModule is true exactly for EmitSIL, EmitSIBGen,
EmitSIB, EmitIR, EmitBC, EmitAssembly, EmitObject, EmitImportedModules,
MergeModules and EmitModuleOnly, and false for every other ActionType,
in particular for EmitSILGen and EmitPCH. -/
theorem canActionEmitModule_exact :
    (∀ a : ActionType, FrontendOptions.canActionEmitModule a = true ↔
      (a = ActionType.EmitSIL ∨ a = ActionType.EmitSIBGen ∨
        a = ActionType.EmitSIB ∨ a = ActionType.EmitIR ∨
        a = ActionType.EmitBC ∨ a = ActionType.EmitAssembly ∨
        a = ActionType.EmitObject ∨ a = ActionType.EmitImportedModules ∨
        a = ActionType.MergeModules ∨ a = ActionType.EmitModuleOnly)) ∧
    FrontendOptions.canActionEmitModule ActionType.EmitSILGen = false ∧
    FrontendOptions.canActionEmitModule ActionType.EmitPCH = false := by
  refine ⟨by decide, by decide, by decide⟩

/-- C3 counterexample: the claim that both canActionEmitHeader and
canActionEmitLoadedModuleTrace return false at EmitPCH is false:
canActionEmitLoadedModuleTrace EmitPCH returns true in the source. -/
theorem emitPCH_trace_claim_false :
    ¬ (FrontendOptions.canActionEmitHeader ActionType.EmitPCH = false ∧
      FrontendOptions.canActionEmitLoadedModuleTrace ActionType.EmitPCH = false) := by
  decide

/-- C3 amended: canActionEmitHeader EmitPCH is false, but
canActionEmitLoadedModuleTrace EmitPCH is true: precompiled-header
emission is excluded from generated-header emission but included in
loaded-module-trace emission. -/
theorem emitPCH_header_excluded_trace_included :
    FrontendOptions.canActionEmitHeader ActionType.EmitPCH = false ∧
    FrontendOptions.canActionEmitLoadedModuleTrace ActionType.EmitPCH = true := by
  decide

/-- C4 counterexample: with requested action Parse and the non-empty
generated-header output path header.h, hasUnusedObjCHeaderOutputPath
returns false, not true as claimed, because canActionEmitHeader Parse
is true in the source. -/
theorem parse_header_path_not_unused_cex :
    parseWithHeaderPath.ObjCHeaderOutputPath = "header.h" ∧
    parseWithHeaderPath.RequestedAction = ActionType.Parse ∧
    ¬ (FrontendOptions.hasUnusedObjCHeaderOutputPath parseWithHeaderPath = true) := by
  decide

/-- C4 amended: with a non-empty generated-header output path,
hasUnusedObjCHeaderOutputPath returns false both when the requested
action is Parse (Parse can emit a header, so the path is used) and when
it is MergeModules. -/
theorem unusedObjCHeaderOutputPath_parse_merge_false :
    FrontendOptions.hasUnusedObjCHeaderOutputPath parseWithHeaderPath = false ∧
    FrontendOptions.hasUnusedObjCHeaderOutputPath mergeWithHeaderPath = false := by
  decide

/-- C5: suffixForPrincipalOutputFileForAction returns a suffix exactly
when doesActionProduceOutput is true, isActionImmediate is false, and
the action is none of Parse, Typecheck, DumpParse, DumpAST, EmitSyntax,
DumpInterfaceHash, PrintAST, DumpScopeMaps, DumpTypeRefinementContexts. -/
theorem suffix_iff_produces_output_nonimmediate_nondiag :
    ∀ a : ActionType,
      (FrontendOptions.suffixForPrincipalOutputFileForAction a).isSome = true ↔
        (FrontendOptions.doesActionProduceOutput a = true ∧
          FrontendOptions.isActionImmediate a = false ∧
          a ∉ ([ActionType.Parse, ActionType.Typecheck, ActionType.DumpParse,
            ActionType.DumpAST, ActionType.EmitSyntax,
            ActionType.DumpInterfaceHash, ActionType.PrintAST,
            ActionType.DumpScopeMaps,
            ActionType.DumpTypeRefinementContexts] : List ActionType)) := by
  decide

/-- C6: doesActionProduceOutput is false exactly for NoneAction,
Immediate and REPL, and true for every other ActionType. -/
theorem doesActionProduceOutput_exact :
    ∀ a : ActionType, FrontendOptions.doesActionProduceOutput a = false ↔
      (a = ActionType.NoneAction ∨ a = ActionType.Immediate ∨
        a = ActionType.REPL) := by
  decide

/-- C7: doesActionProduceTextualOutput is false exactly for EmitPCH,
EmitSIBGen, EmitSIB, EmitBC, EmitObject, EmitModuleOnly, MergeModules,
NoneAction, Immediate and REPL, and true for every other ActionType. -/
theorem doesActionProduceTextualOutput_exact :
    ∀ a : ActionType, FrontendOptions.doesActionProduceTextualOutput a = false ↔
      (a = ActionType.EmitPCH ∨ a = ActionType.EmitSIBGen ∨
        a = ActionType.EmitSIB ∨ a = ActionType.EmitBC ∨
        a = ActionType.EmitObject ∨ a = ActionType.EmitModuleOnly ∨
        a = ActionType.MergeModules ∨ a = ActionType.NoneAction ∨
        a = ActionType.Immediate ∨ a = ActionType.REPL) := by
  decide

/-- C8: canActionEmitDependencies is false exactly for NoneAction, the
dump/print/diagnostic actions, Immediate and REPL; in particular it is
true for Parse and Typecheck. -/
theorem canActionEmitDependencies_exact :
    (∀ a : ActionType, FrontendOptions.canActionEmitDependencies a = false ↔
      (a = ActionType.NoneAction ∨ a = ActionType.DumpParse ∨
        a = ActionType.DumpInterfaceHash ∨ a = ActionType.DumpAST ∨
        a = ActionType.EmitSyntax ∨ a = ActionType.PrintAST ∨
        a = ActionType.DumpScopeMaps ∨
        a = ActionType.DumpTypeRefinementContexts ∨
        a = ActionType.Immediate ∨ a = ActionType.REPL)) ∧
    FrontendOptions.canActionEmitDependencies ActionType.Parse = true ∧
    FrontendOptions.canActionEmitDependencies ActionType.Typecheck = true := by
  refine ⟨by decide, by decide, by decide⟩

/-- C9: originalPath resolves with a fixed three-tier priority: the
named single output file if one exists, else the unique primary
input's filename, else the module name; in particular out.o, then
main.swift, then M on the three concrete configurations. -/
theorem originalPath_three_tier :
    (∀ o : FrontendOptions, o.hasNamedOutputFile = true →
      o.originalPath = o.getSingleOutputFilename) ∧
    (∀ o : FrontendOptions, o.hasNamedOutputFile = false →
      ∀ i, o.UniquePrimaryInput = some i → o.originalPath = Path.filename i) ∧
    (∀ o : FrontendOptions, o.hasNamedOutputFile = false →
      o.UniquePrimaryInput = none → o.originalPath = o.ModuleName) ∧
    optNamedOutput.originalPath = "out.o" ∧
    optPrimaryInput.originalPath = "main.swift" ∧
    optModuleNameOnly.originalPath = "M" := by
  refine ⟨?_, ?_, ?_, by decide, by decide, by decide⟩
  · intro o h
    simp [FrontendOptions.originalPath, h]
  · intro o h i hi
    simp [FrontendOptions.originalPath, h, hi]
  · intro o h hn
    simp [FrontendOptions.originalPath, h, hn]

/-- C9 witness: the three tiers of originalPath_three_tier applied to
the three concrete option configurations. -/
theorem originalPath_three_tier_witness :
    optNamedOutput.originalPath = optNamedOutput.getSingleOutputFilename ∧
    optPrimaryInput.originalPath = Path.filename "main.swift" ∧
    optModuleNameOnly.originalPath = optModuleNameOnly.ModuleName :=
  ⟨originalPath_three_tier.1 optNamedOutput (by decide),
    originalPath_three_tier.2.1 optPrimaryInput (by decide) "main.swift" rfl,
    originalPath_three_tier.2.2.1 optModuleNameOnly (by decide) rfl⟩

/-- C10: forAllOutputPaths invokes the callback exactly on the paths of
visitedOutputPathsSpec, in that order: the principal output filenames
unless the requested action is EmitModuleOnly or MergeModules, then
each non-empty path among ModuleOutputPath, ModuleDocOutputPath and
ObjCHeaderOutputPath; the options value is read but never changed. -/
theorem forAllOutputPaths_visits {σ : Type} (o : FrontendOptions)
    (fn : String → σ → σ) (s : σ) :
    o.forAllOutputPaths fn s =
      (visitedOutputPathsSpec o).foldl (fun acc p => fn p acc) s := by
  by_cases h : o.RequestedAction ≠ ActionType.EmitModuleOnly ∧
      o.RequestedAction ≠ ActionType.MergeModules <;>
    cases h1 : o.ModuleOutputPath.isEmpty <;>
      cases h2 : o.ModuleDocOutputPath.isEmpty <;>
        cases h3 : o.ObjCHeaderOutputPath.isEmpty <;>
          simp [FrontendOptions.forAllOutputPaths, visitedOutputPathsSpec,
            List.filter_cons, List.foldl_append, h, h1, h2, h3]
